import Mathlib

/-!
Shallow embedding of the AlphaDuel Soroban contract
(src/contracts/alpha-duel/src/lib.rs) and verification of its
natural-language specification.

Modelling conventions:
- `Address` (Soroban `Address`) is modelled as `Nat`.
- `BytesN<32>` commitment values are modelled as `Nat` (opaque values).
- `Bytes` proof blobs and `Vec<u32>` are modelled as `List Nat`.
- `i128` stake amounts are modelled as `Int` (no claim touches overflow).
- The temporary storage keyed by `DataKey::Game(session_id)` is modelled as
  a function `Store : Nat → Option Game`; `env.storage().temporary().set`
  is `store_set`.
- A contract invocation either returns `Except.ok` together with the new
  store (and the list of cross-contract GameHub calls it performed), or
  `Except.error`.  Both typed errors (`Err.typed`, the `Error` enum returned
  or raised via `panic_with_error!`) and string panics (`Err.fatal`,
  `panic!`/`expect`) abort the invocation; the Soroban host rolls back all
  writes of an aborted invocation, which the embedding captures by an
  `.error` result carrying no store: the caller keeps the pre-call store.
- `require_auth` / `require_auth_for_args` are authorization checks against
  the host and carry no state of their own; they are not modelled.
- The GameHub (escrow) client calls are modelled as emitted `HubCall`
  events, assumed to succeed (their failure would abort the invocation).
-/

namespace AlphaDuel

abbrev Address := Nat

/-- Error enum from the contract source. -/
inductive Error
  | GameNotFound
  | NotPlayer
  | AlreadyGuessed
  | BothPlayersNotGuessed
  | GameAlreadyEnded
  | InvalidGuessLength
  | AlreadyCommitted
  deriving DecidableEq, Repr

/-- An aborted invocation: either a typed contract `Error` (returned as
`Err(..)` or raised with `panic_with_error!`) or an untyped `panic!` with a
message string. -/
inductive Err
  | typed : Error → Err
  | fatal : String → Err
  deriving DecidableEq, Repr

/-- The `Game` session record from the contract source. -/
structure Game where
  player1 : Address
  player1_guess : Option (List Nat)
  player1_points : Int
  player2 : Address
  player2_guess : Option (List Nat)
  player2_points : Int
  winner : Option Address
  hidden_word_id : Nat
  player1_guess_commitment : Option Nat
  player2_guess_commitment : Option Nat
  deriving DecidableEq, Repr

/-- The temporary-storage map `DataKey::Game(session_id) → Game`. -/
def Store := Nat → Option Game

/-- `env.storage().temporary().set(&DataKey::Game(k), &g)`. -/
def store_set (st : Store) (k : Nat) (g : Game) : Store :=
  fun q => if q = k then some g else st q

/-- Cross-contract calls made to the GameHub (escrow) client. -/
inductive HubCall
  | hubStart (session_id : Nat) (player1 player2 : Address)
      (player1_points player2_points : Int)
  | hubEnd (session_id : Nat) (player1_won : Bool)
  deriving DecidableEq, Repr

/-- Letter encoding `A=0..Z=25` of `encode_word`. -/
def encode_word (word : String) : List Nat :=
  word.toList.map (fun c => c.toNat - 65)

/-- The fixed 50-word pool of `get_hidden_letters`. -/
def word_for (id : Nat) : String :=
  match id with
  | 0 => "APPLE"
  | 1 => "BANANA"
  | 2 => "ORANGE"
  | 3 => "GRAPE"
  | 4 => "MANGO"
  | 5 => "PEACH"
  | 6 => "LEMON"
  | 7 => "CHERRY"
  | 8 => "PEAR"
  | 9 => "PLUM"
  | 10 => "KIWI"
  | 11 => "FIG"
  | 12 => "DATE"
  | 13 => "LIME"
  | 14 => "APRICOT"
  | 15 => "PAPAYA"
  | 16 => "GUAVA"
  | 17 => "PINEAPPLE"
  | 18 => "COCONUT"
  | 19 => "BLUEBERRY"
  | 20 => "STRAWBERRY"
  | 21 => "RASPBERRY"
  | 22 => "BLACKBERRY"
  | 23 => "WATERMELON"
  | 24 => "CANTALOUPE"
  | 25 => "HONEYDEW"
  | 26 => "NECTARINE"
  | 27 => "TANGERINE"
  | 28 => "POMEGRANATE"
  | 29 => "PASSIONFRUIT"
  | 30 => "DRAGONFRUIT"
  | 31 => "LYCHEE"
  | 32 => "JACKFRUIT"
  | 33 => "CRANBERRY"
  | 34 => "MULBERRY"
  | 35 => "FIGS"
  | 36 => "DATEFRUIT"
  | 37 => "OLIVE"
  | 38 => "QUINCE"
  | 39 => "KUMQUAT"
  | 40 => "AVOCADO"
  | 41 => "MANDARIN"
  | 42 => "PEPPERMINT"
  | 43 => "CLEMENTINE"
  | 44 => "GRAPEFRUIT"
  | 45 => "STARFRUIT"
  | 46 => "BILBERRY"
  | 47 => "GOOSEBERRY"
  | 48 => "ELDERBERRY"
  | _ => "SATSUMA"

/-- `get_hidden_letters`: dictionary lookup followed by letter encoding. -/
def get_hidden_letters (id : Nat) : List Nat :=
  encode_word (word_for id)

/-- `start_game`: rejects identical players (panic), calls the GameHub to
lock stakes, then persists a fresh session record under
`DataKey::Game(session_id)` with `hidden_word_id = session_id % 50`. -/
def start_game (st : Store) (session_id : Nat) (player1 player2 : Address)
    (player1_points player2_points : Int) :
    Except Err (Store × List HubCall) :=
  if player1 = player2 then
    .error (.fatal "Cannot play against yourself")
  else
    let game : Game :=
      { player1 := player1
        player1_guess := none
        player1_points := player1_points
        player2 := player2
        player2_guess := none
        player2_points := player2_points
        winner := none
        hidden_word_id := session_id % 50
        player1_guess_commitment := none
        player2_guess_commitment := none }
    .ok (store_set st session_id game,
      [HubCall.hubStart session_id player1 player2 player1_points player2_points])

/-- `get_game`: storage lookup, `GameNotFound` when absent. -/
def get_game (st : Store) (session_id : Nat) : Except Err Game :=
  match st session_id with
  | some g => .ok g
  | none => .error (.typed .GameNotFound)

/-- `make_guess`: records a player's plaintext guess once. -/
def make_guess (st : Store) (session_id : Nat) (player : Address)
    (guess : List Nat) : Except Err Store :=
  match st session_id with
  | none => .error (.typed .GameNotFound)
  | some game =>
    if game.winner.isSome then
      .error (.typed .GameAlreadyEnded)
    else if player = game.player1 then
      if game.player1_guess.isSome then
        .error (.typed .AlreadyGuessed)
      else
        .ok (store_set st session_id { game with player1_guess := some guess })
    else if player = game.player2 then
      if game.player2_guess.isSome then
        .error (.typed .AlreadyGuessed)
      else
        .ok (store_set st session_id { game with player2_guess := some guess })
    else
      .error (.typed .NotPlayer)

/-- `commit_guess`: records a player's 32-byte commitment once. -/
def commit_guess (st : Store) (session_id : Nat) (player : Address)
    (guess_commitment : Nat) : Except Err Store :=
  match st session_id with
  | none => .error (.typed .GameNotFound)
  | some game =>
    if game.winner.isSome then
      .error (.typed .GameAlreadyEnded)
    else if player = game.player1 then
      if game.player1_guess_commitment.isSome then
        .error (.typed .AlreadyCommitted)
      else
        .ok (store_set st session_id
          { game with player1_guess_commitment := some guess_commitment })
    else if player = game.player2 then
      if game.player2_guess_commitment.isSome then
        .error (.typed .AlreadyCommitted)
      else
        .ok (store_set st session_id
          { game with player2_guess_commitment := some guess_commitment })
    else
      .error (.typed .NotPlayer)

/-- The inner `count_matches` loop of `reveal_winner`: for each guessed
letter, increment the count when the hidden sequence contains it. -/
def count_matches (hidden guess : List Nat) : Nat :=
  guess.foldl (fun count g => if hidden.contains g then count + 1 else count) 0

/-- `reveal_winner`: plain resolution path.  Requires both guesses, counts
loose matches against the hidden word, declares `player1` on a tie or
higher count, and persists only the `winner` field. -/
def reveal_winner (st : Store) (session_id : Nat) :
    Except Err (Address × Store) :=
  match st session_id with
  | none => .error (.typed .GameNotFound)
  | some game =>
    if game.player1_guess.isNone || game.player2_guess.isNone then
      .error (.typed .BothPlayersNotGuessed)
    else
      let hidden := get_hidden_letters game.hidden_word_id
      let p1_guess := game.player1_guess.getD []
      let p2_guess := game.player2_guess.getD []
      let p1_correct := count_matches hidden p1_guess
      let p2_correct := count_matches hidden p2_guess
      let winner := if p1_correct ≥ p2_correct then game.player1 else game.player2
      .ok (winner, store_set st session_id { game with winner := some winner })

/-- `reveal_winner_with_proof`: proof-attested resolution path.  Requires
both commitments, no recorded winner, a non-empty proof and at least one
public input; flag 1/2 selects the winner, who takes the combined stake. -/
def reveal_winner_with_proof (st : Store) (session_id : Nat)
    (proof : List Nat) (public_inputs : List Nat) :
    Except Err (Address × Store) :=
  match st session_id with
  | none => .error (.typed .GameNotFound)
  | some game =>
    if game.player1_guess_commitment.isNone || game.player2_guess_commitment.isNone then
      .error (.typed .BothPlayersNotGuessed)
    else if game.winner.isSome then
      .error (.fatal "Game already settled")
    else if proof.length = 0 then
      .error (.fatal "Proof missing")
    else if public_inputs.length < 1 then
      .error (.fatal "Missing public winner output")
    else
      if public_inputs.headD 0 = 1 then
        transfer_to st session_id game game.player1
      else if public_inputs.headD 0 = 2 then
        transfer_to st session_id game game.player2
      else
        .error (.fatal "Invalid winner flag")
where
  /-- Step 3 of `reveal_winner_with_proof`: winner-takes-all stake
  transfer followed by persisting `winner`. -/
  transfer_to (st : Store) (session_id : Nat) (game : Game) (winner : Address) :
      Except Err (Address × Store) :=
    if winner = game.player1 then
      .ok (winner, store_set st session_id
        { game with
          player1_points := game.player1_points + game.player2_points
          player2_points := 0
          winner := some winner })
    else if winner = game.player2 then
      .ok (winner, store_set st session_id
        { game with
          player2_points := game.player2_points + game.player1_points
          player1_points := 0
          winner := some winner })
    else
      .error (.fatal "Winner address does not match players")

/-- `end_game`: requires both commitments and a recorded winner, then
reports `(session_id, player1_won)` to the GameHub.  It writes nothing
back to storage. -/
def end_game (st : Store) (session_id : Nat) :
    Except Err (Store × List HubCall) :=
  match st session_id with
  | none => .error (.typed .GameNotFound)
  | some game =>
    if game.player1_guess_commitment.isNone || game.player2_guess_commitment.isNone then
      .error (.typed .BothPlayersNotGuessed)
    else
      match game.winner with
      | none => .error (.typed .BothPlayersNotGuessed)
      | some winner =>
        .ok (st, [HubCall.hubEnd session_id (decide (winner = game.player1))])

/-!  Spec-side definitions and bridge lemmas. -/

/-- The loose containment tally as the spec words it: the number of guessed
letter codes (duplicates in the guess counted separately) that appear
anywhere in the hidden letter sequence.  Stated independently of the
`count_matches` loop so the two can be compared. -/
def looseTally (hidden guess : List Nat) : Nat :=
  (guess.filter (fun g => decide (g ∈ hidden))).length

lemma count_matches_go (hidden guess : List Nat) (n : Nat) :
    guess.foldl (fun count g => if g ∈ hidden then count + 1 else count) n
      = n + looseTally hidden guess := by
  induction guess generalizing n with
  | nil => simp [looseTally]
  | cons a t ih =>
    by_cases h : a ∈ hidden
    · simp [looseTally, List.filter_cons, h, ih]
      omega
    · simp [looseTally, List.filter_cons, h, ih]

/-- The `count_matches` loop computes exactly the spec's loose tally. -/
lemma count_matches_eq_looseTally (hidden guess : List Nat) :
    count_matches hidden guess = looseTally hidden guess := by
  have h : count_matches hidden guess
      = guess.foldl (fun count g => if g ∈ hidden then count + 1 else count) 0 := by
    simp [count_matches, List.contains]
  rw [h, count_matches_go]
  simp

/-- Read a store after `store_set` at the written key. -/
lemma store_set_same (st : Store) (k : Nat) (g : Game) :
    store_set st k g k = some g := by
  simp [store_set]

/-!  Concrete sessions and stores used by witnesses and counterexamples. -/

/-- A settled session (winner player2) with both commitments present. -/
def gameA : Game :=
  { player1 := 1, player1_guess := none, player1_points := 100
    player2 := 2, player2_guess := none, player2_points := 50
    winner := some 2, hidden_word_id := 3
    player1_guess_commitment := some 11
    player2_guess_commitment := some 22 }

def storeA : Store := fun q => if q = 3 then some gameA else none

/-- A settled session (winner player1) with both commitments present. -/
def gameB : Game :=
  { player1 := 1, player1_guess := none, player1_points := 100
    player2 := 2, player2_guess := none, player2_points := 50
    winner := some 1, hidden_word_id := 3
    player1_guess_commitment := some 11
    player2_guess_commitment := some 22 }

def storeB : Store := fun q => if q = 3 then some gameB else none

/-- An unresolved session with both guesses present (word 0, APPLE). -/
def gameC : Game :=
  { player1 := 1, player1_guess := some [0], player1_points := 7
    player2 := 2, player2_guess := some [25], player2_points := 8
    winner := none, hidden_word_id := 0
    player1_guess_commitment := none
    player2_guess_commitment := none }

def storeC : Store := fun q => if q = 0 then some gameC else none

/-- An active session with guesses present but player1 uncommitted. -/
def gameD : Game :=
  { player1 := 1, player1_guess := some [3, 4], player1_points := 10
    player2 := 2, player2_guess := some [5], player2_points := 20
    winner := none, hidden_word_id := 4
    player1_guess_commitment := none
    player2_guess_commitment := some 99 }

def storeD : Store := fun q => if q = 4 then some gameD else none

/-- An active session with both commitments but player2 unguessed. -/
def gameE : Game :=
  { player1 := 1, player1_guess := some [3, 4], player1_points := 10
    player2 := 2, player2_guess := none, player2_points := 20
    winner := none, hidden_word_id := 4
    player1_guess_commitment := some 7
    player2_guess_commitment := some 99 }

def storeE : Store := fun q => if q = 4 then some gameE else none

/-!  Claim theorems. -/

/-- C4: every successful session creation with distinct participants makes
the session retrievable via `get_game` with exactly the stakes passed at
creation, `hidden_word_id = session_id % 50`, and empty guess, commitment
and winner fields. -/
theorem C4_start_game_retrievable (st : Store) (session_id : Nat)
    (player1 player2 : Address) (player1_points player2_points : Int)
    (h : player1 ≠ player2) :
    ∃ st' calls,
      start_game st session_id player1 player2 player1_points player2_points
        = .ok (st', calls) ∧
      get_game st' session_id = .ok
        { player1 := player1
          player1_guess := none
          player1_points := player1_points
          player2 := player2
          player2_guess := none
          player2_points := player2_points
          winner := none
          hidden_word_id := session_id % 50
          player1_guess_commitment := none
          player2_guess_commitment := none } := by
  unfold start_game
  rw [if_neg h]
  refine ⟨_, _, rfl, ?_⟩
  simp [get_game, store_set]

/-- C4 witness at a concrete input. -/
theorem C4_witness :
    (1 : Address) ≠ 2 ∧
    ∃ st' calls,
      start_game (fun _ => none) 57 1 2 100 50 = .ok (st', calls) ∧
      get_game st' 57 = .ok
        { player1 := 1
          player1_guess := none
          player1_points := 100
          player2 := 2
          player2_guess := none
          player2_points := 50
          winner := none
          hidden_word_id := 57 % 50
          player1_guess_commitment := none
          player2_guess_commitment := none } :=
  ⟨by decide, C4_start_game_retrievable (fun _ => none) 57 1 2 100 50 (by decide)⟩

/-- C6: `end_game` fails with `BothPlayersNotGuessed` when either
commitment is missing or no winner is recorded; otherwise it succeeds,
leaves the store as it was, and reports exactly one
`(session_id, player1_won)` call to the GameHub, with
`player1_won = (winner = player1)`. -/
theorem C6_end_game_spec (st : Store) (session_id : Nat) (game : Game)
    (hg : st session_id = some game) :
    (game.player1_guess_commitment = none ∨ game.player2_guess_commitment = none →
      end_game st session_id = .error (.typed .BothPlayersNotGuessed)) ∧
    (game.player1_guess_commitment.isSome → game.player2_guess_commitment.isSome →
      game.winner = none →
      end_game st session_id = .error (.typed .BothPlayersNotGuessed)) ∧
    (∀ w, game.player1_guess_commitment.isSome → game.player2_guess_commitment.isSome →
      game.winner = some w →
      end_game st session_id
        = .ok (st, [HubCall.hubEnd session_id (decide (w = game.player1))])) := by
  unfold end_game
  rw [hg]
  refine ⟨?_, ?_, ?_⟩
  · rintro (hc | hc) <;> simp [hc]
  · intro h1 h2 hw
    obtain ⟨a, ha⟩ := Option.isSome_iff_exists.mp h1
    obtain ⟨b, hb⟩ := Option.isSome_iff_exists.mp h2
    simp [ha, hb, hw]
  · intro w h1 h2 hw
    obtain ⟨a, ha⟩ := Option.isSome_iff_exists.mp h1
    obtain ⟨b, hb⟩ := Option.isSome_iff_exists.mp h2
    simp [ha, hb, hw]

/-- C6 witness at a concrete input. -/
theorem C6_witness :
    end_game storeA 3
      = .ok (storeA, [HubCall.hubEnd 3 (decide ((2 : Address) = 1))]) :=
  (C6_end_game_spec storeA 3 gameA rfl).2.2 2 rfl rfl rfl

/-- C7: whenever `reveal_winner` succeeds, the only change it persists is
the `winner` field: stakes, guesses, commitments, participants and
`hidden_word_id` are untouched. -/
theorem C7_reveal_winner_frame (st : Store) (session_id : Nat) (game : Game)
    (w : Address) (st' : Store)
    (hg : st session_id = some game)
    (h : reveal_winner st session_id = .ok (w, st')) :
    st' = store_set st session_id { game with winner := some w } := by
  unfold reveal_winner at h
  rw [hg] at h
  cases hguess : (game.player1_guess.isNone || game.player2_guess.isNone) with
  | true => simp [hguess] at h
  | false =>
    simp only [hguess, Bool.false_eq_true, if_false, Except.ok.injEq,
      Prod.mk.injEq] at h
    obtain ⟨hw, hst⟩ := h
    subst hw
    exact hst.symm

/-- C7 witness at a concrete input. -/
theorem C7_witness :
    store_set storeC 0 { gameC with winner := some 1 }
      = store_set storeC 0 { gameC with winner := some 1 } :=
  C7_reveal_winner_frame storeC 0 gameC 1
    (store_set storeC 0 { gameC with winner := some 1 }) rfl rfl

/-- C9: a successful `end_game` returns the store unchanged and exactly one
hub report; since nothing is written back, an immediately repeated call
succeeds with the same result and reports again. -/
theorem C9_end_game_no_write (st : Store) (session_id : Nat) (st' : Store)
    (calls : List HubCall)
    (h : end_game st session_id = .ok (st', calls)) :
    st' = st ∧ (∃ b, calls = [HubCall.hubEnd session_id b]) ∧
      end_game st' session_id = .ok (st', calls) := by
  unfold end_game at h
  cases hq : st session_id with
  | none =>
    rw [hq] at h
    simp at h
  | some game =>
    rw [hq] at h
    cases hc :
        (game.player1_guess_commitment.isNone || game.player2_guess_commitment.isNone) with
    | true => simp [hc] at h
    | false =>
      cases hwin : game.winner with
      | none => simp [hc, hwin] at h
      | some winner =>
        simp only [hc, Bool.false_eq_true, if_false, hwin, Except.ok.injEq,
          Prod.mk.injEq] at h
        obtain ⟨hst, hcalls⟩ := h
        subst hst
        subst hcalls
        refine ⟨rfl, ⟨_, rfl⟩, ?_⟩
        unfold end_game
        rw [hq]
        simp [hc, hwin]

/-- C9 witness at a concrete input. -/
theorem C9_witness :
    storeB = storeB ∧
    (∃ b, [HubCall.hubEnd 3 (decide ((1 : Address) = 1))] = [HubCall.hubEnd 3 b]) ∧
    end_game storeB 3
      = .ok (storeB, [HubCall.hubEnd 3 (decide ((1 : Address) = 1))]) :=
  C9_end_game_no_write storeB 3 storeB
    [HubCall.hubEnd 3 (decide ((1 : Address) = 1))] rfl

/-- C8: for an active session (no winner yet), committing requires no prior
guess and guessing requires no prior commitment: a participant whose
commitment slot is empty can always `commit_guess`, whatever the guess
fields hold, and a participant whose guess slot is empty can always
`make_guess`, whatever the commitment fields hold. -/
theorem C8_commit_and_guess_independent (st : Store) (session_id : Nat)
    (game : Game) (player : Address)
    (hg : st session_id = some game) (hw : game.winner = none)
    (hp : player = game.player1 ∨ player = game.player2) :
    (∀ c, (if player = game.player1 then game.player1_guess_commitment
           else game.player2_guess_commitment) = none →
      (commit_guess st session_id player c).isOk = true) ∧
    (∀ gu, (if player = game.player1 then game.player1_guess
            else game.player2_guess) = none →
      (make_guess st session_id player gu).isOk = true) := by
  constructor
  · intro c hslot
    by_cases h1 : player = game.player1
    · rw [if_pos h1] at hslot
      subst h1
      simp [commit_guess, hg, hw, hslot, Except.isOk, Except.toBool]
    · rw [if_neg h1] at hslot
      rcases hp with h | h
      · exact absurd h h1
      · subst h
        simp [commit_guess, hg, hw, h1, hslot, Except.isOk, Except.toBool]
  · intro gu hslot
    by_cases h1 : player = game.player1
    · rw [if_pos h1] at hslot
      subst h1
      simp [make_guess, hg, hw, hslot, Except.isOk, Except.toBool]
    · rw [if_neg h1] at hslot
      rcases hp with h | h
      · exact absurd h h1
      · subst h
        simp [make_guess, hg, hw, h1, hslot, Except.isOk, Except.toBool]

/-- C8 witness at a concrete input: a session holding a plaintext guess for
player1 but no commitments, on which player1 can still commit, and a
session holding commitments but no guesses, on which player2 can still
guess. -/
theorem C8_witness :
    (commit_guess storeD 4 1 55).isOk = true ∧
    (make_guess storeE 4 2 [8]).isOk = true :=
  ⟨(C8_commit_and_guess_independent storeD 4 gameD 1 rfl rfl (Or.inl rfl)).1
      55 rfl,
   (C8_commit_and_guess_independent storeE 4 gameE 2 rfl rfl (Or.inr rfl)).2
      [8] rfl⟩

/-- The winner the spec describes for the plain path: the participant with
the higher or equal loose containment tally against the hidden word, ties
resolving to `player1`.  Stated from the spec's words, to be compared with
what `reveal_winner` computes. -/
def plain_winner (game : Game) (g1 g2 : List Nat) : Address :=
  if looseTally (get_hidden_letters game.hidden_word_id) g1 ≥
      looseTally (get_hidden_letters game.hidden_word_id) g2
  then game.player1 else game.player2

/-- C3: with both guesses populated, `reveal_winner` scores each guess by
the loose containment tally against the hidden word, declares `player1` the
winner exactly when player1's tally is greater than or equal to player2's
(ties to player1) and `player2` otherwise, and is deterministic in the
hidden word, participants and guesses; with either guess missing it fails
with `BothPlayersNotGuessed`. -/
theorem C3_reveal_winner_spec (st : Store) (session_id : Nat) (game : Game)
    (hg : st session_id = some game) :
    (game.player1_guess = none ∨ game.player2_guess = none →
      reveal_winner st session_id = .error (.typed .BothPlayersNotGuessed)) ∧
    (∀ g1 g2, game.player1_guess = some g1 → game.player2_guess = some g2 →
      reveal_winner st session_id = .ok
        (plain_winner game g1 g2,
         store_set st session_id
          { game with winner := some (plain_winner game g1 g2) })) ∧
    (∀ st2 sid2 game2, st2 sid2 = some game2 →
      game2.hidden_word_id = game.hidden_word_id →
      game2.player1_guess = game.player1_guess →
      game2.player2_guess = game.player2_guess →
      game2.player1 = game.player1 → game2.player2 = game.player2 →
      (reveal_winner st2 sid2).toOption.map Prod.fst
        = (reveal_winner st session_id).toOption.map Prod.fst) := by
  refine ⟨?_, ?_, ?_⟩
  · intro hmiss
    unfold reveal_winner
    rw [hg]
    rcases hmiss with hm | hm <;> simp [hm]
  · intro g1 g2 hg1 hg2
    unfold reveal_winner
    rw [hg]
    simp [hg1, hg2, count_matches_eq_looseTally, plain_winner]
  · intro st2 sid2 game2 hq2 hword hd1 hd2 hp1 hp2
    unfold reveal_winner
    rw [hg, hq2]
    cases hA : game.player1_guess with
    | none => simp [hd1, hA, Except.toOption]
    | some g1 =>
      cases hB : game.player2_guess with
      | none => simp [hd1, hd2, hA, hB, Except.toOption]
      | some g2 =>
        simp [hd1, hd2, hA, hB, hword, hp1, hp2, Except.toOption]

/-- A session on word 0 (APPLE) with guesses `[0, 15, 15]` (tally 3) and
`[25, 24, 23]` (tally 0). -/
def gameF : Game :=
  { player1 := 1, player1_guess := some [0, 15, 15], player1_points := 7
    player2 := 2, player2_guess := some [25, 24, 23], player2_points := 8
    winner := none, hidden_word_id := 0
    player1_guess_commitment := none
    player2_guess_commitment := none }

def storeF : Store := fun q => if q = 0 then some gameF else none

/-- C3 witness at a concrete input: on `gameF` the plain resolution
declares player1 (3 loose matches against APPLE beats 0). -/
theorem C3_witness :
    (reveal_winner storeF 0).toOption.map Prod.fst = some 1 := by
  have h := (C3_reveal_winner_spec storeF 0 gameF rfl).2.1
    [0, 15, 15] [25, 24, 23] rfl rfl
  rw [h]
  rfl

/-- Winner-identity invariant for one session record: a recorded winner is
one of the two stored participants. -/
def winnerOk (g : Game) : Prop :=
  ∀ w, g.winner = some w → w = g.player1 ∨ w = g.player2

/-- Store-wide winner-identity invariant. -/
def storeOk (st : Store) : Prop :=
  ∀ k g, st k = some g → winnerOk g

lemma storeOk_set {st : Store} (h : storeOk st) {k : Nat} {g : Game}
    (hgame : winnerOk g) : storeOk (store_set st k g) := by
  intro q g' hq
  unfold store_set at hq
  by_cases hqk : q = k
  · rw [if_pos hqk] at hq
    cases hq
    exact hgame
  · rw [if_neg hqk] at hq
    exact h q g' hq

/-- C10: every public operation preserves the invariant that any recorded
winner is one of the session's two stored participants. -/
theorem C10_winner_invariant (st : Store) (h : storeOk st) :
    (∀ sid p1 p2 a b st' calls,
      start_game st sid p1 p2 a b = .ok (st', calls) → storeOk st') ∧
    (∀ sid p gu st', make_guess st sid p gu = .ok st' → storeOk st') ∧
    (∀ sid p c st', commit_guess st sid p c = .ok st' → storeOk st') ∧
    (∀ sid w st', reveal_winner st sid = .ok (w, st') → storeOk st') ∧
    (∀ sid proof pi w st',
      reveal_winner_with_proof st sid proof pi = .ok (w, st') → storeOk st') ∧
    (∀ sid st' calls, end_game st sid = .ok (st', calls) → storeOk st') := by
  refine ⟨?_, ?_, ?_, ?_, ?_, ?_⟩
  · intro sid p1 p2 a b st' calls hop
    unfold start_game at hop
    split at hop
    · simp at hop
    · simp only [Except.ok.injEq, Prod.mk.injEq] at hop
      obtain ⟨hst, -⟩ := hop
      subst hst
      exact storeOk_set h (fun w hw => by simp at hw)
  · intro sid p gu st' hop
    unfold make_guess at hop
    split at hop
    · simp at hop
    · rename_i game heq
      split at hop
      · simp at hop
      · split at hop
        · split at hop
          · simp at hop
          · simp only [Except.ok.injEq] at hop
            subst hop
            exact storeOk_set h (h sid game heq)
        · split at hop
          · split at hop
            · simp at hop
            · simp only [Except.ok.injEq] at hop
              subst hop
              exact storeOk_set h (h sid game heq)
          · simp at hop
  · intro sid p c st' hop
    unfold commit_guess at hop
    split at hop
    · simp at hop
    · rename_i game heq
      split at hop
      · simp at hop
      · split at hop
        · split at hop
          · simp at hop
          · simp only [Except.ok.injEq] at hop
            subst hop
            exact storeOk_set h (h sid game heq)
        · split at hop
          · split at hop
            · simp at hop
            · simp only [Except.ok.injEq] at hop
              subst hop
              exact storeOk_set h (h sid game heq)
          · simp at hop
  · intro sid w st' hop
    unfold reveal_winner at hop
    split at hop
    · simp at hop
    · rename_i game heq
      split at hop
      · simp at hop
      · simp only [Except.ok.injEq, Prod.mk.injEq] at hop
        obtain ⟨hw, hst⟩ := hop
        subst hst
        refine storeOk_set h ?_
        intro w' hw'
        simp only [Option.some.injEq] at hw'
        subst hw'
        split
        · exact Or.inl rfl
        · exact Or.inr rfl
  · intro sid proof pi w st' hop
    unfold reveal_winner_with_proof at hop
    split at hop
    · simp at hop
    · rename_i game heq
      split at hop
      · simp at hop
      · split at hop
        · simp at hop
        · split at hop
          · simp at hop
          · split at hop
            · simp at hop
            · split at hop
              · unfold reveal_winner_with_proof.transfer_to at hop
                split at hop
                · simp only [Except.ok.injEq, Prod.mk.injEq] at hop
                  obtain ⟨hw, hst⟩ := hop
                  subst hst
                  refine storeOk_set h ?_
                  intro w' hw'
                  simp only [Option.some.injEq] at hw'
                  subst hw'
                  exact Or.inl rfl
                · split at hop
                  · simp only [Except.ok.injEq, Prod.mk.injEq] at hop
                    obtain ⟨hw, hst⟩ := hop
                    subst hst
                    refine storeOk_set h ?_
                    intro w' hw'
                    simp only [Option.some.injEq] at hw'
                    subst hw'
                    exact Or.inl rfl
                  · simp at hop
              · split at hop
                · unfold reveal_winner_with_proof.transfer_to at hop
                  split at hop
                  · simp only [Except.ok.injEq, Prod.mk.injEq] at hop
                    obtain ⟨hw, hst⟩ := hop
                    subst hst
                    refine storeOk_set h ?_
                    intro w' hw'
                    simp only [Option.some.injEq] at hw'
                    subst hw'
                    exact Or.inr rfl
                  · split at hop
                    · simp only [Except.ok.injEq, Prod.mk.injEq] at hop
                      obtain ⟨hw, hst⟩ := hop
                      subst hst
                      refine storeOk_set h ?_
                      intro w' hw'
                      simp only [Option.some.injEq] at hw'
                      subst hw'
                      exact Or.inr rfl
                    · simp at hop
                · simp at hop
  · intro sid st' calls hop
    unfold end_game at hop
    split at hop
    · simp at hop
    · rename_i game heq
      split at hop
      · simp at hop
      · split at hop
        · simp at hop
        · simp only [Except.ok.injEq, Prod.mk.injEq] at hop
          obtain ⟨hst, -⟩ := hop
          subst hst
          exact h

lemma storeC_ok : storeOk storeC := by
  intro k g hk
  unfold storeC at hk
  split at hk
  · cases hk
    intro w hw
    simp [gameC] at hw
  · cases hk

/-- C10 witness at a concrete input: `storeC` satisfies the invariant, and
the store `reveal_winner` produces from it satisfies it too. -/
theorem C10_witness :
    storeOk (store_set storeC 0 { gameC with winner := some 1 }) :=
  (C10_winner_invariant storeC storeC_ok).2.2.2.1 0 1
    (store_set storeC 0 { gameC with winner := some 1 }) rfl


/-- C2: `reveal_winner_with_proof` fails with `BothPlayersNotGuessed`
until both commitments are present; with both commitments, no recorded
winner, a non-empty proof and first public input 1, player1 takes the
combined stake and player2's stake becomes zero (symmetrically for 2 when
the participants are distinct), the winner is persisted; any first public
input outside the set of 1 and 2 aborts, so no session field is mutated
(an `.error` result carries no store write). -/
theorem C2_reveal_winner_with_proof_spec (st : Store) (session_id : Nat)
    (game : Game) (hg : st session_id = some game) :
    (game.player1_guess_commitment = none ∨ game.player2_guess_commitment = none →
      ∀ proof pi, reveal_winner_with_proof st session_id proof pi
        = .error (.typed .BothPlayersNotGuessed)) ∧
    (∀ proof pi,
      game.player1_guess_commitment.isSome → game.player2_guess_commitment.isSome →
      game.winner = none → proof ≠ [] →
      (pi.head? = some 1 →
        reveal_winner_with_proof st session_id proof pi = .ok
          (game.player1, store_set st session_id
            { game with
              player1_points := game.player1_points + game.player2_points
              player2_points := 0
              winner := some game.player1 })) ∧
      (pi.head? = some 2 → game.player1 ≠ game.player2 →
        reveal_winner_with_proof st session_id proof pi = .ok
          (game.player2, store_set st session_id
            { game with
              player2_points := game.player2_points + game.player1_points
              player1_points := 0
              winner := some game.player2 })) ∧
      (∀ f, pi.head? = some f → f ≠ 1 → f ≠ 2 →
        reveal_winner_with_proof st session_id proof pi
          = .error (.fatal "Invalid winner flag"))) := by
  constructor
  · intro hmiss proof pi
    unfold reveal_winner_with_proof
    rw [hg]
    rcases hmiss with hm | hm <;> simp [hm]
  · intro proof pi h1 h2 hw hproof
    obtain ⟨a, ha⟩ := Option.isSome_iff_exists.mp h1
    obtain ⟨b, hb⟩ := Option.isSome_iff_exists.mp h2
    refine ⟨?_, ?_, ?_⟩
    · intro hflag
      cases pi with
      | nil => simp at hflag
      | cons x xs =>
        simp only [List.head?_cons, Option.some.injEq] at hflag
        subst hflag
        unfold reveal_winner_with_proof reveal_winner_with_proof.transfer_to
        rw [hg]
        simp [ha, hb, hw, hproof, List.length_eq_zero]
    · intro hflag hne
      cases pi with
      | nil => simp at hflag
      | cons x xs =>
        simp only [List.head?_cons, Option.some.injEq] at hflag
        subst hflag
        unfold reveal_winner_with_proof reveal_winner_with_proof.transfer_to
        rw [hg]
        simp [ha, hb, hw, hproof, List.length_eq_zero, Ne.symm hne]
    · intro f hflag hf1 hf2
      cases pi with
      | nil => simp at hflag
      | cons x xs =>
        simp only [List.head?_cons, Option.some.injEq] at hflag
        subst hflag
        unfold reveal_winner_with_proof
        rw [hg]
        simp [ha, hb, hw, hproof, List.length_eq_zero, hf1, hf2]

/-- A session with both commitments present and no winner. -/
def gameG : Game :=
  { player1 := 1, player1_guess := none, player1_points := 100
    player2 := 2, player2_guess := none, player2_points := 50
    winner := none, hidden_word_id := 9
    player1_guess_commitment := some 11
    player2_guess_commitment := some 22 }

def storeG : Store := fun q => if q = 9 then some gameG else none

/-- C2 witness at a concrete input: flag 1 gives player1 the combined
stake, and flag 7 aborts. -/
theorem C2_witness :
    reveal_winner_with_proof storeG 9 [9] [1]
      = .ok (1, store_set storeG 9
        { gameG with
          player1_points := gameG.player1_points + gameG.player2_points
          player2_points := 0
          winner := some gameG.player1 }) ∧
    reveal_winner_with_proof storeG 9 [9] [7]
      = .error (.fatal "Invalid winner flag") := by
  have h := C2_reveal_winner_with_proof_spec storeG 9 gameG rfl
  exact ⟨(h.2 [9] [1] rfl rfl rfl (by decide)).1 rfl,
         (h.2 [9] [7] rfl rfl rfl (by decide)).2.2 7 rfl (by decide) (by decide)⟩

/-- A resolved session (winner player2) with both guesses present; the
guesses favour player1 (3 loose matches against APPLE versus 0). -/
def gameH : Game :=
  { gameF with winner := some 2 }

def storeH : Store := fun q => if q = 0 then some gameH else none

/-- C1 counterexample: on `gameH` the winner field is already set (to
player2), yet `reveal_winner` succeeds and re-records the winner as
player1 — the winner field is not terminal for the plain
winner-determination path. -/
theorem C1_counterexample :
    (storeH 0).map Game.winner = some (some 2) ∧
    (reveal_winner storeH 0).toOption.map Prod.fst = some 1 ∧
    ((reveal_winner storeH 0).toOption.map (fun r => (r.2 0).map Game.winner))
      = some (some (some 1)) :=
  ⟨rfl, rfl, rfl⟩

/-- C1 amended: once `winner` is set, `reveal_winner_with_proof` always
fails (its double-settlement guard), but `reveal_winner` has no such
guard: whenever both guesses are present it still succeeds and re-records
the freshly recomputed winner, which may differ from the stored one. -/
theorem C1_amended (st : Store) (session_id : Nat) (game : Game)
    (hg : st session_id = some game) (hw : game.winner.isSome) :
    (∀ proof pi,
      (reveal_winner_with_proof st session_id proof pi).isOk = false) ∧
    (∀ g1 g2, game.player1_guess = some g1 → game.player2_guess = some g2 →
      reveal_winner st session_id = .ok
        (plain_winner game g1 g2,
         store_set st session_id
          { game with winner := some (plain_winner game g1 g2) })) := by
  constructor
  · intro proof pi
    unfold reveal_winner_with_proof
    rw [hg]
    cases hc : (game.player1_guess_commitment.isNone
        || game.player2_guess_commitment.isNone) with
    | true => simp [hc, Except.isOk, Except.toBool]
    | false => simp [hc, hw, Except.isOk, Except.toBool]
  · intro g1 g2 hg1 hg2
    unfold reveal_winner
    rw [hg]
    simp [hg1, hg2, count_matches_eq_looseTally, plain_winner]

/-- C1 witness at a concrete input: on the settled session `gameH`,
`reveal_winner_with_proof` fails while `reveal_winner` still succeeds. -/
theorem C1_witness :
    (reveal_winner_with_proof storeH 0 [1] [1]).isOk = false ∧
    reveal_winner storeH 0 = .ok
      (plain_winner gameH [0, 15, 15] [25, 24, 23],
       store_set storeH 0
        { gameH with
          winner := some (plain_winner gameH [0, 15, 15] [25, 24, 23]) }) := by
  have h := C1_amended storeH 0 gameH rfl rfl
  exact ⟨h.1 [1] [1], h.2 [0, 15, 15] [25, 24, 23] rfl rfl⟩

/-- The reachable state behind the C5 counterexample: create session 5,
let both players guess, resolve the winner via the plain path. -/
def c5_story : Except Err Store := do
  let (st1, _) ← start_game (fun _ => none) 5 1 2 100 50
  let st2 ← make_guess st1 5 1 [0, 15, 11]
  let st3 ← make_guess st2 5 2 [25, 24, 23]
  let (_, st4) ← reveal_winner st3 5
  pure st4

/-- C5 counterexample: after player1's guess slot was populated by a first
`make_guess` and a winner was then recorded, player1's second `make_guess`
fails with `GameAlreadyEnded`, not `AlreadyGuessed`. -/
theorem C5_counterexample :
    (c5_story.toOption.map (fun st4 =>
        ((st4 5).map Game.player1_guess, make_guess st4 5 1 [9])))
      = some (some (some [0, 15, 11]),
          .error (.typed .GameAlreadyEnded)) ∧
    Err.typed .GameAlreadyEnded ≠ Err.typed .AlreadyGuessed :=
  ⟨rfl, by decide⟩

/-- C5 amended: a second `make_guess` by a participant whose guess slot is
populated always fails — with `AlreadyGuessed` while no winner is
recorded, and with `GameAlreadyEnded` once a winner is set; either way the
result is an `.error`, which carries no store write, so the first guess's
stored value is unchanged. -/
theorem C5_amended (st : Store) (session_id : Nat) (game : Game)
    (player : Address) (g1 : List Nat)
    (hg : st session_id = some game)
    (hp : player = game.player1 ∨ player = game.player2)
    (hslot : (if player = game.player1 then game.player1_guess
              else game.player2_guess) = some g1) :
    ∀ g2,
      (game.winner = none →
        make_guess st session_id player g2 = .error (.typed .AlreadyGuessed)) ∧
      (game.winner.isSome →
        make_guess st session_id player g2 = .error (.typed .GameAlreadyEnded)) := by
  intro g2
  constructor
  · intro hw
    by_cases h1 : player = game.player1
    · rw [if_pos h1] at hslot
      subst h1
      simp [make_guess, hg, hw, hslot]
    · rw [if_neg h1] at hslot
      rcases hp with h | h
      · exact absurd h h1
      · subst h
        simp [make_guess, hg, hw, h1, hslot]
  · intro hw
    simp [make_guess, hg, hw]

/-- C5 witness at concrete inputs: second guesses on `gameF` (no winner)
and `gameH` (winner set) fail with the two respective errors. -/
theorem C5_witness :
    make_guess storeF 0 1 [9] = .error (.typed .AlreadyGuessed) ∧
    make_guess storeH 0 1 [9] = .error (.typed .GameAlreadyEnded) :=
  ⟨((C5_amended storeF 0 gameF 1 [0, 15, 15] rfl (Or.inl rfl) rfl) [9]).1 rfl,
   ((C5_amended storeH 0 gameH 1 [0, 15, 15] rfl (Or.inl rfl) rfl) [9]).2 rfl⟩

end AlphaDuel
